import Mathlib

/-!
Shallow embedding of the transcription servers of this repository.

The main model follows the request handler of
src/streaming_based_transcribe/server.js (the MP3-conversion variant with
buffer accumulation).  Byte buffers are modelled as lists of naturals,
the two external collaborators (ffmpeg conversion and the curl
transcription call) as functions returning an Except value, and each
call of the handler additionally reports the list of collaborator calls
it made, in order.
-/

namespace StreamingServer

/-- Source constant: chunks below 1000 bytes are skipped (line 53). -/
def MIN_CHUNK_BYTES : Nat := 1000

/-- Source constant MAX_BUFFER_SIZE = 5 * 1024 * 1024 (line 23). -/
def MAX_BUFFER_SIZE : Nat := 5 * 1024 * 1024

/-- Source constant MAX_EMPTY_RESPONSES = 3 (line 25). -/
def MAX_EMPTY_RESPONSES : Nat := 3

/-- The process-wide mutable variables of server.js (lines 21-24). -/
structure AccumulatorState where
  previousAudioBuffer : Option (List Nat)
  previousAudioBufferSize : Nat
  consecutiveEmptyResponses : Nat
deriving DecidableEq, Repr

/-- All variables start zeroed / null (lines 21-24). -/
def initialState : AccumulatorState :=
  { previousAudioBuffer := none, previousAudioBufferSize := 0,
    consecutiveEmptyResponses := 0 }

/-- The POST /reset route (lines 240-248): unconditionally zero the state. -/
def resetState (_st : AccumulatorState) : AccumulatorState := initialState

/-- The two external collaborators: convertToMp3 (ffmpeg) yields the MP3
bytes or a conversion error; transcribeWithCurl yields the transcript
string of a buffer or a hard call failure. -/
structure Collaborators where
  convertToMp3 : List Nat → Except String (List Nat)
  transcribeWithCurl : List Nat → Except String String

/-- One collaborator invocation, recorded in the order the handler makes
them. -/
inductive CallEvent where
  | convertCall (input : List Nat)
  | transcribeCall (input : List Nat)
deriving DecidableEq, Repr

/-- combinedBuffer (lines 64-72): prepend the stored buffer, if any. -/
def combinedOf (st : AccumulatorState) (chunk : List Nat) : List Nat :=
  match st.previousAudioBuffer with
  | some p => p ++ chunk
  | none => chunk

/-- The empty-transcript bookkeeping duplicated at lines 118-137 and
173-190: increment the counter; on reaching MAX_EMPTY_RESPONSES zero
everything, otherwise store the combined buffer only while it is below
MAX_BUFFER_SIZE. -/
def recordEmptyResponse (st : AccumulatorState) (combined : List Nat) :
    AccumulatorState :=
  let cnt := st.consecutiveEmptyResponses + 1
  if MAX_EMPTY_RESPONSES ≤ cnt then
    { previousAudioBuffer := none, previousAudioBufferSize := 0,
      consecutiveEmptyResponses := 0 }
  else if combined.length < MAX_BUFFER_SIZE then
    { previousAudioBuffer := some combined,
      previousAudioBufferSize := combined.length,
      consecutiveEmptyResponses := cnt }
  else
    { previousAudioBuffer := none, previousAudioBufferSize := 0,
      consecutiveEmptyResponses := cnt }

/-- JavaScript String.prototype.trim, modelled structurally on the
character list: drop whitespace from both ends. -/
def jsTrim (t : String) : String :=
  String.mk
    (((t.data.dropWhile Char.isWhitespace).reverse.dropWhile
        Char.isWhitespace).reverse)

/-- Shared handling of a transcript value (lines 105-145 and 160-198):
`transcript && transcript.trim() !== ''` selects the success path, which
zeroes the state and returns the text; otherwise the empty-response
bookkeeping runs and the empty string is returned.  (A string is falsy
in JavaScript exactly when it is empty, so the guard is equivalent to
the trimmed transcript being nonempty.) -/
def settleTranscript (st : AccumulatorState) (combined : List Nat)
    (t : String) : Except String String × AccumulatorState :=
  if jsTrim t = "" then
    (Except.ok "", recordEmptyResponse st combined)
  else
    (Except.ok t, initialState)

/-- The conversionError catch block (lines 152-199) together with the
outer catch (lines 215-227): transcribe the WebM (combined) buffer
directly; a hard failure of that call reaches the outer catch, which
clears the buffer (but not the counter) and returns the error. -/
def directFallback (c : Collaborators) (st : AccumulatorState)
    (combined : List Nat) : Except String String × AccumulatorState :=
  match c.transcribeWithCurl combined with
  | Except.ok t => settleTranscript st combined t
  | Except.error e =>
      (Except.error e,
       { st with previousAudioBuffer := none, previousAudioBufferSize := 0 })

/-- The POST /audio request handler (lines 41-228).  Returns the response
(transcript or error), the post-state, and the collaborator calls made.
Conversion to MP3 is attempted first; the MP3 is transcribed when the
conversion produced a nonempty file; any failure inside that inner try
(conversion error, missing or empty MP3, or a failing MP3 transcription
call) lands in the conversionError catch, which transcribes the combined
WebM buffer directly. -/
def handle (c : Collaborators) (st : AccumulatorState) (chunk : List Nat) :
    Except String String × AccumulatorState × List CallEvent :=
  if chunk.length < MIN_CHUNK_BYTES then
    (Except.ok "", st, [])
  else
    let combined := combinedOf st chunk
    match c.convertToMp3 combined with
    | Except.ok mp3 =>
        if 0 < mp3.length then
          match c.transcribeWithCurl mp3 with
          | Except.ok t =>
              let r := settleTranscript st combined t
              (r.1, r.2,
               [CallEvent.convertCall combined, CallEvent.transcribeCall mp3])
          | Except.error _ =>
              let r := directFallback c st combined
              (r.1, r.2,
               [CallEvent.convertCall combined, CallEvent.transcribeCall mp3,
                CallEvent.transcribeCall combined])
        else
          let r := directFallback c st combined
          (r.1, r.2,
           [CallEvent.convertCall combined, CallEvent.transcribeCall combined])
    | Except.error _ =>
        let r := directFallback c st combined
        (r.1, r.2,
         [CallEvent.convertCall combined, CallEvent.transcribeCall combined])

/-- States reachable from process start through the two routes. -/
inductive Reachable : AccumulatorState → Prop where
  | init : Reachable initialState
  | step (c : Collaborators) (st : AccumulatorState) (chunk : List Nat) :
      Reachable st → Reachable (handle c st chunk).2.1
  | reset (st : AccumulatorState) :
      Reachable st → Reachable (resetState st)

end StreamingServer

namespace StreamingServer

lemma settleTranscript_snd_of_ok_ne (st : AccumulatorState)
    (combined : List Nat) (t u : String)
    (h1 : (settleTranscript st combined t).1 = Except.ok u) (h2 : u ≠ "") :
    (settleTranscript st combined t).2 = initialState := by
  unfold settleTranscript at h1 ⊢
  by_cases ht : jsTrim t = ""
  · rw [if_pos ht] at h1
    simp at h1
    exact absurd h1.symm h2
  · rw [if_neg ht]

lemma settleTranscript_snd_of_ok_empty (st : AccumulatorState)
    (combined : List Nat) (t : String)
    (h : (settleTranscript st combined t).1 = Except.ok "") :
    (settleTranscript st combined t).2 = recordEmptyResponse st combined := by
  unfold settleTranscript at h ⊢
  by_cases ht : jsTrim t = ""
  · rw [if_pos ht]
  · rw [if_neg ht] at h
    simp at h
    rw [h] at ht
    exact absurd rfl ht

lemma recordEmptyResponse_count (st : AccumulatorState) (combined : List Nat) :
    (recordEmptyResponse st combined).consecutiveEmptyResponses =
      if MAX_EMPTY_RESPONSES ≤ st.consecutiveEmptyResponses + 1 then 0
      else st.consecutiveEmptyResponses + 1 := by
  unfold recordEmptyResponse
  dsimp only
  by_cases h : MAX_EMPTY_RESPONSES ≤ st.consecutiveEmptyResponses + 1
  · rw [if_pos h, if_pos h]
  · rw [if_neg h, if_neg h]
    by_cases hlen : combined.length < MAX_BUFFER_SIZE
    · rw [if_pos hlen]
    · rw [if_neg hlen]

lemma recordEmptyResponse_giveup (st : AccumulatorState) (combined : List Nat)
    (h : MAX_EMPTY_RESPONSES ≤ st.consecutiveEmptyResponses + 1) :
    (recordEmptyResponse st combined).previousAudioBuffer = none ∧
    (recordEmptyResponse st combined).consecutiveEmptyResponses = 0 := by
  unfold recordEmptyResponse
  dsimp only
  rw [if_pos h]
  exact ⟨rfl, rfl⟩

lemma settleTranscript_fst_ne_error (st : AccumulatorState)
    (combined : List Nat) (t : String) (e : String) :
    (settleTranscript st combined t).1 ≠ Except.error e := by
  unfold settleTranscript
  split <;> simp

/-- Every call on a chunk that passes the size check ends either in the
shared transcript handling (with the transcript of whichever attempt was
used last) or in the outer catch, whose error is the direct transcription
call's failure on the combined buffer. -/
lemma handle_outcome (c : Collaborators) (st : AccumulatorState)
    (chunk : List Nat) (h : ¬ chunk.length < MIN_CHUNK_BYTES) :
    (∃ t0, ((handle c st chunk).1, (handle c st chunk).2.1) =
        settleTranscript st (combinedOf st chunk) t0) ∨
    (∃ e, (handle c st chunk).1 = Except.error e ∧
        (handle c st chunk).2.1 =
          { st with previousAudioBuffer := none,
                    previousAudioBufferSize := 0 } ∧
        c.transcribeWithCurl (combinedOf st chunk) = Except.error e) := by
  unfold handle directFallback
  rw [if_neg h]
  dsimp only
  rcases hc : c.convertToMp3 (combinedOf st chunk) with e | mp3
  · simp only [hc]
    rcases htc : c.transcribeWithCurl (combinedOf st chunk) with e1 | t1
    · simp only [htc]
      exact Or.inr ⟨e1, rfl, trivial, rfl⟩
    · simp only [htc]
      exact Or.inl ⟨t1, rfl⟩
  · simp only [hc]
    by_cases hm : 0 < mp3.length
    · rw [if_pos hm]
      rcases ht : c.transcribeWithCurl mp3 with e0 | t0
      · simp only [ht]
        rcases htc : c.transcribeWithCurl (combinedOf st chunk) with e1 | t1
        · simp only [htc]
          exact Or.inr ⟨e1, rfl, trivial, rfl⟩
        · simp only [htc]
          exact Or.inl ⟨t1, rfl⟩
      · simp only [ht]
        exact Or.inl ⟨t0, rfl⟩
    · rw [if_neg hm]
      rcases htc : c.transcribeWithCurl (combinedOf st chunk) with e1 | t1
      · simp only [htc]
        exact Or.inr ⟨e1, rfl, trivial, rfl⟩
      · simp only [htc]
        exact Or.inl ⟨t1, rfl⟩

lemma handle_small (c : Collaborators) (st : AccumulatorState)
    (chunk : List Nat) (h : chunk.length < MIN_CHUNK_BYTES) :
    handle c st chunk = (Except.ok "", st, []) := by
  simp [handle, h]

lemma handle_snd_of_ok_ne (c : Collaborators) (st : AccumulatorState)
    (chunk : List Nat) (t : String)
    (h1 : (handle c st chunk).1 = Except.ok t) (h2 : t ≠ "") :
    (handle c st chunk).2.1 = initialState := by
  by_cases hs : chunk.length < MIN_CHUNK_BYTES
  · rw [handle_small c st chunk hs] at h1
    simp at h1
    exact absurd h1.symm h2
  · rcases handle_outcome c st chunk hs with ⟨t0, hpair⟩ | ⟨e, he, _, _⟩
    · have hfst : (settleTranscript st (combinedOf st chunk) t0).1 =
          Except.ok t := by rw [← congrArg Prod.fst hpair]; exact h1
      have hsnd := congrArg Prod.snd hpair
      simp only at hsnd
      rw [hsnd]
      exact settleTranscript_snd_of_ok_ne _ _ _ _ hfst h2
    · rw [he] at h1
      exact absurd h1 (by simp)

lemma handle_snd_of_ok_empty (c : Collaborators) (st : AccumulatorState)
    (chunk : List Nat) (hs : ¬ chunk.length < MIN_CHUNK_BYTES)
    (h1 : (handle c st chunk).1 = Except.ok "") :
    (handle c st chunk).2.1 = recordEmptyResponse st (combinedOf st chunk) := by
  rcases handle_outcome c st chunk hs with ⟨t0, hpair⟩ | ⟨e, he, _, _⟩
  · have hfst : (settleTranscript st (combinedOf st chunk) t0).1 =
        Except.ok "" := by rw [← congrArg Prod.fst hpair]; exact h1
    have hsnd := congrArg Prod.snd hpair
    simp only at hsnd
    rw [hsnd]
    exact settleTranscript_snd_of_ok_empty _ _ _ hfst
  · rw [he] at h1
    exact absurd h1 (by simp)

/-- Claim C6: a chunk strictly below MIN_CHUNK_BYTES yields the empty
transcript with no error, leaves the state untouched, and makes no
collaborator call. -/
theorem claim_C6 (c : Collaborators) (st : AccumulatorState)
    (chunk : List Nat) (h : chunk.length < MIN_CHUNK_BYTES) :
    handle c st chunk = (Except.ok "", st, []) := by
  simp [handle, h]

/-- Witness for C6 at a concrete small chunk. -/
theorem claim_C6_witness :
    ([7, 7, 7] : List Nat).length < MIN_CHUNK_BYTES ∧
    handle ⟨fun _ => Except.error "down", fun _ => Except.error "down"⟩
      initialState [7, 7, 7] = (Except.ok "", initialState, []) :=
  ⟨by decide,
   claim_C6 ⟨fun _ => Except.error "down", fun _ => Except.error "down"⟩
     initialState [7, 7, 7] (by decide)⟩

/-- Claim C5: whenever handle returns non-empty text, the post-state has
a cleared pending buffer and a zero consecutive-empty counter. -/
theorem claim_C5 (c : Collaborators) (st : AccumulatorState)
    (chunk : List Nat) (t : String)
    (h1 : (handle c st chunk).1 = Except.ok t) (h2 : t ≠ "") :
    (handle c st chunk).2.1.previousAudioBuffer = none ∧
    (handle c st chunk).2.1.previousAudioBufferSize = 0 ∧
    (handle c st chunk).2.1.consecutiveEmptyResponses = 0 := by
  rw [handle_snd_of_ok_ne c st chunk t h1 h2]
  exact ⟨rfl, rfl, rfl⟩

/-- Witness for C5: a buffered state plus a successful transcription. -/
theorem claim_C5_witness :
    (handle ⟨fun _ => Except.ok [5], fun _ => Except.ok "hello"⟩
        { previousAudioBuffer := some (List.replicate 1200 3),
          previousAudioBufferSize := 1200, consecutiveEmptyResponses := 2 }
        (List.replicate 1000 0)).1 = Except.ok "hello" ∧
    (handle ⟨fun _ => Except.ok [5], fun _ => Except.ok "hello"⟩
        { previousAudioBuffer := some (List.replicate 1200 3),
          previousAudioBufferSize := 1200, consecutiveEmptyResponses := 2 }
        (List.replicate 1000 0)).2.1.previousAudioBuffer = none ∧
    (handle ⟨fun _ => Except.ok [5], fun _ => Except.ok "hello"⟩
        { previousAudioBuffer := some (List.replicate 1200 3),
          previousAudioBufferSize := 1200, consecutiveEmptyResponses := 2 }
        (List.replicate 1000 0)).2.1.previousAudioBufferSize = 0 ∧
    (handle ⟨fun _ => Except.ok [5], fun _ => Except.ok "hello"⟩
        { previousAudioBuffer := some (List.replicate 1200 3),
          previousAudioBufferSize := 1200, consecutiveEmptyResponses := 2 }
        (List.replicate 1000 0)).2.1.consecutiveEmptyResponses = 0 := by
  have h1 : (handle ⟨fun _ => Except.ok [5], fun _ => Except.ok "hello"⟩
      { previousAudioBuffer := some (List.replicate 1200 3),
        previousAudioBufferSize := 1200, consecutiveEmptyResponses := 2 }
      (List.replicate 1000 0)).1 = Except.ok "hello" := by
    have hlen : ¬ (List.replicate 1000 (0 : Nat)).length < MIN_CHUNK_BYTES := by
      rw [List.length_replicate]
      decide
    unfold handle settleTranscript
    rw [if_neg hlen]
    dsimp only
    rw [if_pos (by decide), if_neg (by decide)]
  exact ⟨h1, claim_C5 _ _ _ _ h1 (by decide)⟩

/-- Claim C3: a size-passing call that yields empty text increments the
counter by one, and on reaching MAX_EMPTY_RESPONSES the counter resets
to 0 and the pending buffer is cleared. -/
theorem claim_C3 (c : Collaborators) (st : AccumulatorState)
    (chunk : List Nat) (h1 : MIN_CHUNK_BYTES ≤ chunk.length)
    (h2 : (handle c st chunk).1 = Except.ok "") :
    (handle c st chunk).2.1.consecutiveEmptyResponses =
      (if MAX_EMPTY_RESPONSES ≤ st.consecutiveEmptyResponses + 1 then 0
       else st.consecutiveEmptyResponses + 1) ∧
    (MAX_EMPTY_RESPONSES ≤ st.consecutiveEmptyResponses + 1 →
      (handle c st chunk).2.1.previousAudioBuffer = none ∧
      (handle c st chunk).2.1.consecutiveEmptyResponses = 0) := by
  have hs : ¬ chunk.length < MIN_CHUNK_BYTES := not_lt.mpr h1
  rw [handle_snd_of_ok_empty c st chunk hs h2]
  exact ⟨recordEmptyResponse_count st _,
    fun hmax => recordEmptyResponse_giveup st _ hmax⟩

/-- Witness for C3: counter at 2, third consecutive empty result. -/
theorem claim_C3_witness :
    MIN_CHUNK_BYTES ≤ (List.replicate 1000 (0 : Nat)).length ∧
    ((handle ⟨fun _ => Except.error "conv", fun _ => Except.ok ""⟩
        { previousAudioBuffer := some (List.replicate 1100 9),
          previousAudioBufferSize := 1100, consecutiveEmptyResponses := 2 }
        (List.replicate 1000 0)).2.1.consecutiveEmptyResponses =
      (if MAX_EMPTY_RESPONSES ≤ 2 + 1 then 0 else 2 + 1) ∧
     (MAX_EMPTY_RESPONSES ≤ 2 + 1 →
      (handle ⟨fun _ => Except.error "conv", fun _ => Except.ok ""⟩
        { previousAudioBuffer := some (List.replicate 1100 9),
          previousAudioBufferSize := 1100, consecutiveEmptyResponses := 2 }
        (List.replicate 1000 0)).2.1.previousAudioBuffer = none ∧
      (handle ⟨fun _ => Except.error "conv", fun _ => Except.ok ""⟩
        { previousAudioBuffer := some (List.replicate 1100 9),
          previousAudioBufferSize := 1100, consecutiveEmptyResponses := 2 }
        (List.replicate 1000 0)).2.1.consecutiveEmptyResponses = 0)) := by
  have hlen : MIN_CHUNK_BYTES ≤ (List.replicate 1000 (0 : Nat)).length := by
    rw [List.length_replicate]
    decide
  have h2 : (handle ⟨fun _ => Except.error "conv", fun _ => Except.ok ""⟩
      { previousAudioBuffer := some (List.replicate 1100 9),
        previousAudioBufferSize := 1100, consecutiveEmptyResponses := 2 }
      (List.replicate 1000 0)).1 = Except.ok "" := by
    unfold handle directFallback settleTranscript
    rw [if_neg (not_lt.mpr hlen)]
    dsimp only
    rw [if_pos (by decide)]
  exact ⟨hlen, claim_C3 _ _ _ hlen h2⟩

lemma recordEmptyResponse_size_le (st : AccumulatorState)
    (combined : List Nat) :
    (recordEmptyResponse st combined).previousAudioBufferSize ≤
      MAX_BUFFER_SIZE := by
  unfold recordEmptyResponse
  dsimp only
  by_cases h : MAX_EMPTY_RESPONSES ≤ st.consecutiveEmptyResponses + 1
  · rw [if_pos h]
    exact Nat.zero_le _
  · rw [if_neg h]
    by_cases hlen : combined.length < MAX_BUFFER_SIZE
    · rw [if_pos hlen]
      exact Nat.le_of_lt hlen
    · rw [if_neg hlen]
      exact Nat.zero_le _

lemma settleTranscript_size_le (st : AccumulatorState) (combined : List Nat)
    (t : String) :
    (settleTranscript st combined t).2.previousAudioBufferSize ≤
      MAX_BUFFER_SIZE := by
  unfold settleTranscript
  by_cases ht : jsTrim t = ""
  · rw [if_pos ht]
    exact recordEmptyResponse_size_le st combined
  · rw [if_neg ht]
    exact Nat.zero_le _

lemma handle_size_le (c : Collaborators) (st : AccumulatorState)
    (chunk : List Nat) (h : st.previousAudioBufferSize ≤ MAX_BUFFER_SIZE) :
    (handle c st chunk).2.1.previousAudioBufferSize ≤ MAX_BUFFER_SIZE := by
  by_cases hs : chunk.length < MIN_CHUNK_BYTES
  · rw [handle_small c st chunk hs]
    exact h
  · rcases handle_outcome c st chunk hs with ⟨t0, hpair⟩ | ⟨e, _, hsnd, _⟩
    · have hsnd := congrArg Prod.snd hpair
      simp only at hsnd
      rw [hsnd]
      exact settleTranscript_size_le st _ t0
    · rw [hsnd]
      exact Nat.zero_le _

/-- Claim C4: in every reachable state the cached pending size stays at
or below MAX_BUFFER_SIZE, and an empty-yielding call whose combined
buffer meets or exceeds the ceiling drops the buffer instead of storing
it. -/
theorem claim_C4 :
    (∀ st, Reachable st →
      st.previousAudioBufferSize ≤ MAX_BUFFER_SIZE) ∧
    (∀ (c : Collaborators) (st : AccumulatorState) (chunk : List Nat),
      MIN_CHUNK_BYTES ≤ chunk.length →
      MAX_BUFFER_SIZE ≤ (combinedOf st chunk).length →
      (handle c st chunk).1 = Except.ok "" →
      (handle c st chunk).2.1.previousAudioBuffer = none ∧
      (handle c st chunk).2.1.previousAudioBufferSize = 0) := by
  constructor
  · intro st h
    induction h with
    | init => exact Nat.zero_le _
    | step c st chunk _ ih => exact handle_size_le c st chunk ih
    | reset st _ _ => exact Nat.zero_le _
  · intro c st chunk h1 h2 hok
    have hs : ¬ chunk.length < MIN_CHUNK_BYTES := not_lt.mpr h1
    rw [handle_snd_of_ok_empty c st chunk hs hok]
    unfold recordEmptyResponse
    dsimp only
    by_cases hmax : MAX_EMPTY_RESPONSES ≤ st.consecutiveEmptyResponses + 1
    · rw [if_pos hmax]
      exact ⟨rfl, rfl⟩
    · rw [if_neg hmax, if_neg (not_lt.mpr h2)]
      exact ⟨rfl, rfl⟩

/-- Witness for C4: the initial state, and a 5MB chunk whose combined
buffer hits the ceiling and is dropped. -/
theorem claim_C4_witness :
    initialState.previousAudioBufferSize ≤ MAX_BUFFER_SIZE ∧
    ((handle ⟨fun _ => Except.error "conv", fun _ => Except.ok ""⟩
        initialState (List.replicate MAX_BUFFER_SIZE 0)).2.1.previousAudioBuffer
        = none ∧
     (handle ⟨fun _ => Except.error "conv", fun _ => Except.ok ""⟩
        initialState
        (List.replicate MAX_BUFFER_SIZE 0)).2.1.previousAudioBufferSize = 0) := by
  have hmin : MIN_CHUNK_BYTES ≤ (List.replicate MAX_BUFFER_SIZE (0 : Nat)).length := by
    rw [List.length_replicate]
    decide
  have hceil : MAX_BUFFER_SIZE ≤
      (combinedOf initialState (List.replicate MAX_BUFFER_SIZE (0 : Nat))).length := by
    unfold combinedOf initialState
    dsimp only
    rw [List.length_replicate]
  have hok : (handle ⟨fun _ => Except.error "conv", fun _ => Except.ok ""⟩
      initialState (List.replicate MAX_BUFFER_SIZE 0)).1 = Except.ok "" := by
    unfold handle directFallback settleTranscript
    rw [if_neg (not_lt.mpr hmin)]
    dsimp only
    rw [if_pos (by decide)]
  exact ⟨claim_C4.1 initialState Reachable.init,
    claim_C4.2 _ _ _ hmin hceil hok⟩

/-- Counterexample to claim C2 as stated: on a hard transcription
failure the code clears the buffer and returns the failure, but the
consecutive-empty counter keeps its old value 1 instead of resetting
to 0. -/
theorem claim_C2_counterexample :
    (handle ⟨fun _ => Except.error "conv down", fun _ => Except.error "curl failed"⟩
        { previousAudioBuffer := some (List.replicate 1500 7),
          previousAudioBufferSize := 1500, consecutiveEmptyResponses := 1 }
        (List.replicate 1000 0)).1 = Except.error "curl failed" ∧
    (handle ⟨fun _ => Except.error "conv down", fun _ => Except.error "curl failed"⟩
        { previousAudioBuffer := some (List.replicate 1500 7),
          previousAudioBufferSize := 1500, consecutiveEmptyResponses := 1 }
        (List.replicate 1000 0)).2.1.previousAudioBuffer = none ∧
    (handle ⟨fun _ => Except.error "conv down", fun _ => Except.error "curl failed"⟩
        { previousAudioBuffer := some (List.replicate 1500 7),
          previousAudioBufferSize := 1500, consecutiveEmptyResponses := 1 }
        (List.replicate 1000 0)).2.1.consecutiveEmptyResponses = 1 := by
  have hlen : ¬ (List.replicate 1000 (0 : Nat)).length < MIN_CHUNK_BYTES := by
    rw [List.length_replicate]
    decide
  unfold handle directFallback
  rw [if_neg hlen]
  dsimp only
  exact ⟨rfl, rfl, rfl⟩

/-- Claim C2 as amended: on a hard failure returned to the caller the
handler clears the pending buffer and returns the failure, but leaves
the consecutive-empty counter unchanged; the returned failure is always
the direct transcription call's failure on the combined buffer. -/
theorem claim_C2 (c : Collaborators) (st : AccumulatorState)
    (chunk : List Nat) (e : String)
    (h : (handle c st chunk).1 = Except.error e) :
    (handle c st chunk).2.1.previousAudioBuffer = none ∧
    (handle c st chunk).2.1.previousAudioBufferSize = 0 ∧
    (handle c st chunk).2.1.consecutiveEmptyResponses =
      st.consecutiveEmptyResponses ∧
    c.transcribeWithCurl (combinedOf st chunk) = Except.error e := by
  by_cases hs : chunk.length < MIN_CHUNK_BYTES
  · rw [handle_small c st chunk hs] at h
    exact absurd h (by simp)
  · rcases handle_outcome c st chunk hs with ⟨t0, hpair⟩ | ⟨e1, hfst, hsnd, htc⟩
    · have hfst : (settleTranscript st (combinedOf st chunk) t0).1 =
          Except.error e := by
        rw [← congrArg Prod.fst hpair]
        exact h
      exact absurd hfst (settleTranscript_fst_ne_error st _ t0 e)
    · have he : e1 = e := by
        have := hfst.symm.trans h
        exact Except.error.inj this
      subst he
      rw [hsnd]
      exact ⟨rfl, rfl, rfl, htc⟩

/-- Witness for the amended C2. -/
theorem claim_C2_witness :
    (handle ⟨fun _ => Except.error "no ffmpeg", fun _ => Except.error "api down"⟩
        { previousAudioBuffer := some (List.replicate 2000 1),
          previousAudioBufferSize := 2000, consecutiveEmptyResponses := 2 }
        (List.replicate 1000 4)).1 = Except.error "api down" ∧
    ((handle ⟨fun _ => Except.error "no ffmpeg", fun _ => Except.error "api down"⟩
        { previousAudioBuffer := some (List.replicate 2000 1),
          previousAudioBufferSize := 2000, consecutiveEmptyResponses := 2 }
        (List.replicate 1000 4)).2.1.previousAudioBuffer = none ∧
     (handle ⟨fun _ => Except.error "no ffmpeg", fun _ => Except.error "api down"⟩
        { previousAudioBuffer := some (List.replicate 2000 1),
          previousAudioBufferSize := 2000, consecutiveEmptyResponses := 2 }
        (List.replicate 1000 4)).2.1.previousAudioBufferSize = 0 ∧
     (handle ⟨fun _ => Except.error "no ffmpeg", fun _ => Except.error "api down"⟩
        { previousAudioBuffer := some (List.replicate 2000 1),
          previousAudioBufferSize := 2000, consecutiveEmptyResponses := 2 }
        (List.replicate 1000 4)).2.1.consecutiveEmptyResponses = 2 ∧
     (⟨fun _ => Except.error "no ffmpeg", fun _ => Except.error "api down"⟩ :
        Collaborators).transcribeWithCurl
       (combinedOf
         { previousAudioBuffer := some (List.replicate 2000 1),
           previousAudioBufferSize := 2000, consecutiveEmptyResponses := 2 }
         (List.replicate 1000 4)) = Except.error "api down") := by
  have h : (handle ⟨fun _ => Except.error "no ffmpeg", fun _ => Except.error "api down"⟩
      { previousAudioBuffer := some (List.replicate 2000 1),
        previousAudioBufferSize := 2000, consecutiveEmptyResponses := 2 }
      (List.replicate 1000 4)).1 = Except.error "api down" := by
    have hlen : ¬ (List.replicate 1000 (4 : Nat)).length < MIN_CHUNK_BYTES := by
      rw [List.length_replicate]
      decide
    unfold handle directFallback
    rw [if_neg hlen]
  exact ⟨h, claim_C2 _ _ _ _ h⟩

lemma handle_trace_head (c : Collaborators) (st : AccumulatorState)
    (chunk : List Nat) (h : ¬ chunk.length < MIN_CHUNK_BYTES) :
    (handle c st chunk).2.2.head? =
      some (CallEvent.convertCall (combinedOf st chunk)) := by
  unfold handle
  rw [if_neg h]
  dsimp only
  rcases hc : c.convertToMp3 (combinedOf st chunk) with e | mp3
  · simp only [hc]
    rfl
  · simp only [hc]
    by_cases hm : 0 < mp3.length
    · rw [if_pos hm]
      rcases ht : c.transcribeWithCurl mp3 with e0 | t0 <;> simp only [ht] <;> rfl
    · rw [if_neg hm]
      rfl

lemma handle_trace_conv_ok (c : Collaborators) (st : AccumulatorState)
    (chunk : List Nat) (mp3 : List Nat) (t : String)
    (h : ¬ chunk.length < MIN_CHUNK_BYTES)
    (hc : c.convertToMp3 (combinedOf st chunk) = Except.ok mp3)
    (hm : 0 < mp3.length)
    (ht : c.transcribeWithCurl mp3 = Except.ok t) :
    (handle c st chunk).2.2 =
      [CallEvent.convertCall (combinedOf st chunk),
       CallEvent.transcribeCall mp3] := by
  unfold handle
  rw [if_neg h]
  dsimp only
  simp only [hc]
  rw [if_pos hm]
  simp only [ht]

lemma handle_trace_mp3_error (c : Collaborators) (st : AccumulatorState)
    (chunk : List Nat) (mp3 : List Nat) (e0 : String)
    (h : ¬ chunk.length < MIN_CHUNK_BYTES)
    (hc : c.convertToMp3 (combinedOf st chunk) = Except.ok mp3)
    (hm : 0 < mp3.length)
    (ht : c.transcribeWithCurl mp3 = Except.error e0) :
    (handle c st chunk).2.2 =
      [CallEvent.convertCall (combinedOf st chunk),
       CallEvent.transcribeCall mp3,
       CallEvent.transcribeCall (combinedOf st chunk)] := by
  unfold handle
  rw [if_neg h]
  dsimp only
  simp only [hc]
  rw [if_pos hm]
  simp only [ht]

lemma handle_trace_mp3_empty (c : Collaborators) (st : AccumulatorState)
    (chunk : List Nat) (mp3 : List Nat)
    (h : ¬ chunk.length < MIN_CHUNK_BYTES)
    (hc : c.convertToMp3 (combinedOf st chunk) = Except.ok mp3)
    (hm : ¬ 0 < mp3.length) :
    (handle c st chunk).2.2 =
      [CallEvent.convertCall (combinedOf st chunk),
       CallEvent.transcribeCall (combinedOf st chunk)] := by
  unfold handle
  rw [if_neg h]
  dsimp only
  simp only [hc]
  rw [if_neg hm]

lemma handle_trace_conv_error (c : Collaborators) (st : AccumulatorState)
    (chunk : List Nat) (e : String)
    (h : ¬ chunk.length < MIN_CHUNK_BYTES)
    (hc : c.convertToMp3 (combinedOf st chunk) = Except.error e) :
    (handle c st chunk).2.2 =
      [CallEvent.convertCall (combinedOf st chunk),
       CallEvent.transcribeCall (combinedOf st chunk)] ∧
    ((handle c st chunk).1, (handle c st chunk).2.1) =
      directFallback c st (combinedOf st chunk) := by
  unfold handle
  rw [if_neg h]
  dsimp only
  simp only [hc]
  exact ⟨trivial, trivial⟩

/-- Counterexample to claim C1 as stated: with a successful conversion
the very first collaborator call is the conversion, and no direct
transcription of the combined buffer ever happens, even though no direct
attempt has yielded empty text. -/
theorem claim_C1_counterexample :
    (handle ⟨fun _ => Except.ok [1, 2, 3], fun _ => Except.ok "hi"⟩
        initialState (List.replicate 1000 0)).2.2 =
      [CallEvent.convertCall (List.replicate 1000 0),
       CallEvent.transcribeCall [1, 2, 3]] ∧
    ¬ CallEvent.transcribeCall (List.replicate 1000 0) ∈
      (handle ⟨fun _ => Except.ok [1, 2, 3], fun _ => Except.ok "hi"⟩
        initialState (List.replicate 1000 0)).2.2 := by
  have hlen : ¬ (List.replicate 1000 (0 : Nat)).length < MIN_CHUNK_BYTES := by
    rw [List.length_replicate]
    decide
  have htr : (handle ⟨fun _ => Except.ok [1, 2, 3], fun _ => Except.ok "hi"⟩
      initialState (List.replicate 1000 0)).2.2 =
      [CallEvent.convertCall (List.replicate 1000 0),
       CallEvent.transcribeCall [1, 2, 3]] := by
    unfold handle combinedOf initialState
    rw [if_neg hlen]
    dsimp only
    rw [if_pos (by decide)]
  refine ⟨htr, ?_⟩
  rw [htr]
  intro hmem
  simp only [List.mem_cons, List.not_mem_nil, or_false] at hmem
  rcases hmem with h1 | h2
  · exact CallEvent.noConfusion h1
  · injection h2 with hq
    have hlen2 := congrArg List.length hq
    rw [List.length_replicate] at hlen2
    simp at hlen2

/-- Claim C1 as amended: the handler always invokes the conversion port
on the combined buffer first (the trace starts with the conversion
call); when conversion yields a nonempty file, transcription is
attempted on the converted buffer — with no direct attempt following a
successful converted-buffer call, even one returning empty text, and
with the direct combined-buffer transcription following exactly when
that converted-buffer call fails; and when the conversion step fails
(conversion error, or an empty output file) the combined buffer is
transcribed directly with no converted-buffer attempt. -/
theorem claim_C1 (c : Collaborators) (st : AccumulatorState)
    (chunk : List Nat) (h : MIN_CHUNK_BYTES ≤ chunk.length) :
    (handle c st chunk).2.2.head? =
      some (CallEvent.convertCall (combinedOf st chunk)) ∧
    (∀ mp3, c.convertToMp3 (combinedOf st chunk) = Except.ok mp3 →
      0 < mp3.length →
      (∀ t, c.transcribeWithCurl mp3 = Except.ok t →
        (handle c st chunk).2.2 =
          [CallEvent.convertCall (combinedOf st chunk),
           CallEvent.transcribeCall mp3]) ∧
      (∀ e0, c.transcribeWithCurl mp3 = Except.error e0 →
        (handle c st chunk).2.2 =
          [CallEvent.convertCall (combinedOf st chunk),
           CallEvent.transcribeCall mp3,
           CallEvent.transcribeCall (combinedOf st chunk)])) ∧
    (∀ mp3, c.convertToMp3 (combinedOf st chunk) = Except.ok mp3 →
      mp3.length = 0 →
      (handle c st chunk).2.2 =
        [CallEvent.convertCall (combinedOf st chunk),
         CallEvent.transcribeCall (combinedOf st chunk)]) ∧
    (∀ e, c.convertToMp3 (combinedOf st chunk) = Except.error e →
      (handle c st chunk).2.2 =
        [CallEvent.convertCall (combinedOf st chunk),
         CallEvent.transcribeCall (combinedOf st chunk)]) := by
  have hs : ¬ chunk.length < MIN_CHUNK_BYTES := not_lt.mpr h
  refine ⟨handle_trace_head c st chunk hs, ?_, ?_, ?_⟩
  · intro mp3 hc hm
    exact ⟨fun t ht => handle_trace_conv_ok c st chunk mp3 t hs hc hm ht,
      fun e0 ht => handle_trace_mp3_error c st chunk mp3 e0 hs hc hm ht⟩
  · intro mp3 hc hlen0
    exact handle_trace_mp3_empty c st chunk mp3 hs hc (by omega)
  · intro e hc
    exact (handle_trace_conv_error c st chunk e hs hc).1

/-- Witness for the amended C1. -/
theorem claim_C1_witness :
    MIN_CHUNK_BYTES ≤ (List.replicate 1000 (2 : Nat)).length ∧
    (handle ⟨fun _ => Except.ok [9], fun _ => Except.ok "ok"⟩
        initialState (List.replicate 1000 2)).2.2.head? =
      some (CallEvent.convertCall
        (combinedOf initialState (List.replicate 1000 2))) ∧
    (handle ⟨fun _ => Except.ok [9], fun _ => Except.ok "ok"⟩
        initialState (List.replicate 1000 2)).2.2 =
      [CallEvent.convertCall (combinedOf initialState (List.replicate 1000 2)),
       CallEvent.transcribeCall [9]] := by
  have hmin : MIN_CHUNK_BYTES ≤ (List.replicate 1000 (2 : Nat)).length := by
    rw [List.length_replicate]
    decide
  exact ⟨hmin, (claim_C1 _ _ _ hmin).1,
    ((claim_C1 _ _ _ hmin).2.1 [9] rfl (by decide)).1 "ok" rfl⟩

/-- Counterexample to claim C7 as stated: after a conversion failure the
handler retries transcription on the unconverted buffer, and a
successful retry returns its text with a fully reset state — not the
empty-result bookkeeping (which would return empty text and leave the
counter at 1). -/
theorem claim_C7_counterexample :
    (handle ⟨fun _ => Except.error "ffmpeg failed", fun _ => Except.ok "hello"⟩
        initialState (List.replicate 1000 0)).1 = Except.ok "hello" ∧
    (handle ⟨fun _ => Except.error "ffmpeg failed", fun _ => Except.ok "hello"⟩
        initialState (List.replicate 1000 0)).2.1.consecutiveEmptyResponses
      = 0 ∧
    (handle ⟨fun _ => Except.error "ffmpeg failed", fun _ => Except.ok "hello"⟩
        initialState (List.replicate 1000 0)).2.1.previousAudioBuffer
      = none := by
  have hlen : ¬ (List.replicate 1000 (0 : Nat)).length < MIN_CHUNK_BYTES := by
    rw [List.length_replicate]
    decide
  unfold handle directFallback settleTranscript
  rw [if_neg hlen]
  dsimp only
  rw [if_neg (by decide)]
  exact ⟨rfl, rfl, rfl⟩

/-- Claim C7 as amended: a conversion failure is never itself surfaced;
it triggers one direct transcription of the unconverted combined buffer,
whose outcome (success, empty or failure) decides the call, and any hard
failure the caller sees is that direct transcription call's failure. -/
theorem claim_C7 (c : Collaborators) (st : AccumulatorState)
    (chunk : List Nat) (e : String)
    (h1 : MIN_CHUNK_BYTES ≤ chunk.length)
    (h2 : c.convertToMp3 (combinedOf st chunk) = Except.error e) :
    (handle c st chunk).2.2 =
      [CallEvent.convertCall (combinedOf st chunk),
       CallEvent.transcribeCall (combinedOf st chunk)] ∧
    ((handle c st chunk).1, (handle c st chunk).2.1) =
      directFallback c st (combinedOf st chunk) ∧
    (∀ r, (handle c st chunk).1 = Except.error r →
      c.transcribeWithCurl (combinedOf st chunk) = Except.error r) := by
  have hs : ¬ chunk.length < MIN_CHUNK_BYTES := not_lt.mpr h1
  obtain ⟨htr, hpair⟩ := handle_trace_conv_error c st chunk e hs h2
  refine ⟨htr, hpair, ?_⟩
  intro r hr
  have hfst : (directFallback c st (combinedOf st chunk)).1 =
      Except.error r := by
    rw [← congrArg Prod.fst hpair]
    exact hr
  unfold directFallback at hfst
  rcases htc : c.transcribeWithCurl (combinedOf st chunk) with e1 | t1
  · simp only [htc] at hfst
    exact hfst
  · simp only [htc] at hfst
    exact absurd hfst (settleTranscript_fst_ne_error st _ t1 r)

/-- Witness for the amended C7. -/
theorem claim_C7_witness :
    MIN_CHUNK_BYTES ≤ (List.replicate 1000 (3 : Nat)).length ∧
    (handle ⟨fun _ => Except.error "boom", fun _ => Except.ok ""⟩
        initialState (List.replicate 1000 3)).2.2 =
      [CallEvent.convertCall (combinedOf initialState (List.replicate 1000 3)),
       CallEvent.transcribeCall
         (combinedOf initialState (List.replicate 1000 3))] := by
  have hmin : MIN_CHUNK_BYTES ≤ (List.replicate 1000 (3 : Nat)).length := by
    rw [List.length_replicate]
    decide
  exact ⟨hmin, (claim_C7 _ _ _ "boom" hmin rfl).1⟩

end StreamingServer

/-!
The axios-based server variant (the file defining transcribeAudio and
detectAudioFormat).
-/

namespace AxiosServer

/-- detectAudioFormat (lines 146-158 of the axios variant): check the
first four bytes against the WebM magic 0x1A 0x45 0xDF 0xA3 (guarded by
`buffer.length > 4`), returning 'webm' on a match and 'webm' as the
fallback. -/
def detectAudioFormat (buffer : List Nat) : String :=
  if 4 < buffer.length ∧ buffer.getD 0 0 = 0x1A ∧ buffer.getD 1 0 = 0x45 ∧
      buffer.getD 2 0 = 0xDF ∧ buffer.getD 3 0 = 0xA3 then
    "webm"
  else
    "webm"

/-- The transcript extraction of transcribeAudio (line 134):
`response.data.text || 'No transcription available'` on a successful API
response; a missing text field is modelled as none, and the empty string
is the only falsy string. -/
def transcribeAudioText (respText : Option String) : String :=
  match respText with
  | some t => if t = "" then "No transcription available" else t
  | none => "No transcription available"

/-- Counterexample to claim C8 as stated: a buffer with the RIFF/WAVE
markers is not detected as WAV, and an MP3 frame-sync buffer is not
detected as MP3; both come back as the WebM default. -/
theorem claim_C8_counterexample :
    detectAudioFormat
      [0x52, 0x49, 0x46, 0x46, 0x24, 0x08, 0, 0, 0x57, 0x41, 0x56, 0x45]
      = "webm" ∧
    detectAudioFormat
      [0x52, 0x49, 0x46, 0x46, 0x24, 0x08, 0, 0, 0x57, 0x41, 0x56, 0x45]
      ≠ "wav" ∧
    detectAudioFormat [0xFF, 0xFB, 0x90, 0x64, 0, 0, 0, 0] = "webm" ∧
    detectAudioFormat [0xFF, 0xFB, 0x90, 0x64, 0, 0, 0, 0] ≠ "mp3" := by
  refine ⟨rfl, ?_, rfl, ?_⟩ <;> decide

/-- Claim C8 as amended: format detection inspects only the WebM magic
marker in the four-byte header prefix, and both the match case and the
fallback return the configured default 'webm' — so every buffer is
reported as WebM, and the RIFF/WAVE and MP3 markers are never
consulted. -/
theorem claim_C8 (buffer : List Nat) : detectAudioFormat buffer = "webm" := by
  unfold detectAudioFormat
  split <;> rfl

/-- Claim C10: a successful API response with a missing or empty text
field yields the literal 'No transcription available', and a successful
transcribeAudio call never returns the empty string. -/
theorem claim_C10 (respText : Option String) :
    transcribeAudioText respText ≠ "" ∧
    ((respText = none ∨ respText = some "") →
      transcribeAudioText respText = "No transcription available") := by
  rcases respText with _ | t
  · exact ⟨by decide, fun _ => rfl⟩
  · constructor
    · unfold transcribeAudioText
      dsimp only
      by_cases ht : t = ""
      · rw [if_pos ht]
        decide
      · rw [if_neg ht]
        exact ht
    · intro h
      rcases h with h | h
      · exact Option.noConfusion h
      · have ht : t = "" := Option.some.inj h
        unfold transcribeAudioText
        dsimp only
        rw [if_pos ht]

/-- Witness for C10 at the missing-text-field input. -/
theorem claim_C10_witness :
    transcribeAudioText none ≠ "" ∧
    transcribeAudioText none = "No transcription available" :=
  ⟨(claim_C10 none).1, (claim_C10 none).2 (Or.inl rfl)⟩

end AxiosServer

/-!
The browser capture page of the WAV-based variant
(src/streaming_based_transcribe/streaming.html): createWavFile builds a
44-byte RIFF/WAVE header plus 16-bit little-endian PCM samples.

Audio samples are modelled as rationals.  The JavaScript arithmetic on
them is exact for every float32 input sample: Math.max/Math.min pick an
argument, multiplying a float32 value by 0x8000 scales the exponent, and
multiplying it by 0x7FFF needs at most 24 + 15 significand bits, well
inside double precision; the Int16Array store truncates toward zero and
wraps modulo 2^16 (ECMAScript ToInt16).  So the rational model computes
byte-identical output.
-/

namespace BrowserClient

/-- SAMPLE_RATE constant of streaming.html (line 139). -/
def SAMPLE_RATE : Nat := 16000

/-- DataView.setUint8 on a byte list. -/
def setUint8 (view : List Nat) (off v : Nat) : List Nat :=
  view.set off (v % 256)

/-- DataView.setUint16(_, _, true): little-endian 16-bit store. -/
def setUint16LE (view : List Nat) (off v : Nat) : List Nat :=
  (view.set off (v % 256)).set (off + 1) (v / 256 % 256)

/-- DataView.setUint32(_, _, true): little-endian 32-bit store. -/
def setUint32LE (view : List Nat) (off v : Nat) : List Nat :=
  (((view.set off (v % 256)).set (off + 1) (v / 256 % 256)).set
      (off + 2) (v / 65536 % 256)).set (off + 3) (v / 16777216 % 256)

/-- The writeString helper: one setUint8 per character code. -/
def writeCharCodes : List Nat → Nat → List Char → List Nat
  | view, _, [] => view
  | view, off, ch :: rest => writeCharCodes (setUint8 view off ch.toNat) (off + 1) rest

/-- writeString (lines 226-230): store the char codes of s from off. -/
def writeString (view : List Nat) (off : Nat) (s : String) : List Nat :=
  writeCharCodes view off s.data

/-- createWavHeader (lines 192-224): a 44-byte ArrayBuffer written via a
DataView, field by field in source order. -/
def createWavHeader (dataLength : Nat) : List Nat :=
  let b0 := List.replicate 44 0
  let b1 := writeString b0 0 "RIFF"
  let b2 := setUint32LE b1 4 (36 + dataLength)
  let b3 := writeString b2 8 "WAVE"
  let b4 := writeString b3 12 "fmt "
  let b5 := setUint32LE b4 16 16
  let b6 := setUint16LE b5 20 1
  let b7 := setUint16LE b6 22 1
  let b8 := setUint32LE b7 24 SAMPLE_RATE
  let b9 := setUint32LE b8 28 (SAMPLE_RATE * 2)
  let b10 := setUint16LE b9 32 2
  let b11 := setUint16LE b10 34 16
  let b12 := writeString b11 36 "data"
  setUint32LE b12 40 dataLength

/-- Truncation toward zero, as ECMAScript ToIntegerOrInfinity does
before an integer-typed store. -/
def jsTrunc (q : ℚ) : ℤ :=
  if q < 0 then ⌈q⌉ else ⌊q⌋

/-- ECMAScript ToInt16: wrap modulo 2^16 into [-32768, 32767]. -/
def toInt16 (i : ℤ) : ℤ :=
  (i + 32768) % 65536 - 32768

/-- The sample conversion of createWavFile (lines 238-242):
`const s = Math.max(-1, Math.min(1, x)); s < 0 ? s * 0x8000 : s * 0x7FFF`,
then the Int16Array store. -/
def floatToPcm16 (x : ℚ) : ℤ :=
  let s := max (-1) (min 1 x)
  toInt16 (jsTrunc (if s < 0 then s * 32768 else s * 32767))

/-- The two little-endian bytes of a 16-bit sample as laid out in
memory by Int16Array/Uint8Array. -/
def int16LEBytes (i : ℤ) : List Nat :=
  [(i % 65536).toNat % 256, (i % 65536).toNat / 256 % 256]

/-- createWavFile (lines 190-250): header for 2 bytes per sample,
followed by the converted samples. -/
def createWavFile (audioBuffer : List ℚ) : List Nat :=
  createWavHeader (audioBuffer.length * 2) ++
    audioBuffer.flatMap (fun x => int16LEBytes (floatToPcm16 x))

/-- Little-endian 16-bit read, for stating header facts. -/
def readU16LE (l : List Nat) (off : Nat) : Nat :=
  l.getD off 0 + 256 * l.getD (off + 1) 0

/-- Little-endian 32-bit read, for stating header facts. -/
def readU32LE (l : List Nat) (off : Nat) : Nat :=
  l.getD off 0 + 256 * l.getD (off + 1) 0 + 65536 * l.getD (off + 2) 0 +
    16777216 * l.getD (off + 3) 0

set_option maxRecDepth 10000 in
lemma createWavHeader_eq (n : Nat) :
    createWavHeader n =
      [82, 73, 70, 70,
       (36 + n) % 256, (36 + n) / 256 % 256, (36 + n) / 65536 % 256,
       (36 + n) / 16777216 % 256,
       87, 65, 86, 69,
       102, 109, 116, 32,
       16, 0, 0, 0,
       1, 0,
       1, 0,
       128, 62, 0, 0,
       0, 125, 0, 0,
       2, 0,
       16, 0,
       100, 97, 116, 97,
       n % 256, n / 256 % 256, n / 65536 % 256, n / 16777216 % 256] := by
  unfold createWavHeader writeString setUint32LE setUint16LE
  dsimp only
  norm_num [writeCharCodes, setUint8, List.replicate]
  decide

lemma createWavHeader_length (n : Nat) : (createWavHeader n).length = 44 := by
  rw [createWavHeader_eq]
  rfl

lemma int16LEBytes_length (i : ℤ) : (int16LEBytes i).length = 2 := rfl

lemma flatMapTwo_length (l : List ℚ) :
    (l.flatMap (fun x => int16LEBytes (floatToPcm16 x))).length =
      2 * l.length := by
  induction l with
  | nil => rfl
  | cons a tl ih =>
    rw [List.flatMap_cons, List.length_append, ih, int16LEBytes_length,
      List.length_cons]
    ring

lemma flatMapTwo_drop_take (l : List ℚ) (i : Nat) (hi : i < l.length) :
    ((l.flatMap (fun x => int16LEBytes (floatToPcm16 x))).drop (2 * i)).take 2
      = int16LEBytes (floatToPcm16 (l.get ⟨i, hi⟩)) := by
  induction l generalizing i with
  | nil => exact absurd hi (by simp)
  | cons a tl ih =>
    rw [List.flatMap_cons]
    cases i with
    | zero =>
      rw [Nat.mul_zero, List.drop_zero,
        List.take_append_of_le_length (by rw [int16LEBytes_length]),
        show (2 : Nat) = (int16LEBytes (floatToPcm16 a)).length from
          (int16LEBytes_length _).symm,
        List.take_length]
      rfl
    | succ j =>
      rw [show 2 * (j + 1) = (int16LEBytes (floatToPcm16 a)).length + 2 * j by
          rw [int16LEBytes_length]; ring,
        List.drop_append]
      exact ih j (Nat.lt_of_succ_lt_succ hi)

/-- Claim C9: createWavFile returns 44 + 2n bytes; the first 44 bytes
are the WAV header, whose fields declare PCM (1), mono (1), 16000 Hz,
16 bits per sample and a data-chunk length of 2n, starting with RIFF
and containing WAVE; and bytes 44+2i, 44+2i+1 are the little-endian
16-bit encoding of sample i clamped to [-1, 1] and scaled. -/
theorem claim_C9 (xs : List ℚ) (h : xs.length * 2 < 4294967296) :
    (createWavFile xs).length = 44 + 2 * xs.length ∧
    (createWavFile xs).take 44 = createWavHeader (xs.length * 2) ∧
    readU16LE ((createWavFile xs).take 44) 20 = 1 ∧
    readU16LE ((createWavFile xs).take 44) 22 = 1 ∧
    readU32LE ((createWavFile xs).take 44) 24 = 16000 ∧
    readU16LE ((createWavFile xs).take 44) 34 = 16 ∧
    readU32LE ((createWavFile xs).take 44) 40 = xs.length * 2 ∧
    ((createWavFile xs).take 44).take 4 = [82, 73, 70, 70] ∧
    (((createWavFile xs).take 44).drop 8).take 4 = [87, 65, 86, 69] ∧
    ∀ i, ∀ hi : i < xs.length,
      ((createWavFile xs).drop (44 + 2 * i)).take 2 =
        int16LEBytes (floatToPcm16 (xs.get ⟨i, hi⟩)) := by
  have htake : (createWavFile xs).take 44 = createWavHeader (xs.length * 2) := by
    unfold createWavFile
    exact List.take_left' (createWavHeader_length _)
  have hread32 : readU32LE (createWavHeader (xs.length * 2)) 40 =
      (xs.length * 2) % 256 + 256 * (xs.length * 2 / 256 % 256) +
      65536 * (xs.length * 2 / 65536 % 256) +
      16777216 * (xs.length * 2 / 16777216 % 256) := by
    rw [createWavHeader_eq]
    rfl
  refine ⟨?_, htake, ?_, ?_, ?_, ?_, ?_, ?_, ?_, ?_⟩
  · unfold createWavFile
    rw [List.length_append, createWavHeader_length, flatMapTwo_length]
  · rw [htake, createWavHeader_eq]
    rfl
  · rw [htake, createWavHeader_eq]
    rfl
  · rw [htake, createWavHeader_eq]
    rfl
  · rw [htake, createWavHeader_eq]
    rfl
  · rw [htake, hread32]
    omega
  · rw [htake, createWavHeader_eq]
    rfl
  · rw [htake, createWavHeader_eq]
    rfl
  · intro i hi
    unfold createWavFile
    rw [show 44 + 2 * i = (createWavHeader (xs.length * 2)).length + 2 * i by
        rw [createWavHeader_length],
      List.drop_append]
    exact flatMapTwo_drop_take xs i hi

/-- Witness for C9 on a two-sample buffer. -/
theorem claim_C9_witness :
    ([(1 : ℚ)/2, -1] : List ℚ).length * 2 < 4294967296 ∧
    (createWavFile [(1 : ℚ)/2, -1]).length = 44 + 2 * 2 ∧
    ((createWavFile [(1 : ℚ)/2, -1]).take 44).take 4 = [82, 73, 70, 70] := by
  refine ⟨by norm_num, ?_, ?_⟩
  · exact (claim_C9 [(1 : ℚ)/2, -1] (by norm_num)).1
  · exact (claim_C9 [(1 : ℚ)/2, -1] (by norm_num)).2.2.2.2.2.2.2.1

end BrowserClient
